import Mathlib

/-!
Shallow embedding of the Dudwalls Python SDK example client
(`examples/python-example.py`) and proofs about its claims.

The Python class `DudwallsClient` wraps a remote HTTP/JSON API.  We model:
* JSON values (`Json`) as the decoded bodies the `requests` library returns;
* an HTTP request issued by the wrapper (`HttpRequest`): method, URL, the
  headers the wrapper passes, and the optional JSON body;
* the remote server plus transport as an oracle `Oracle` mapping a request
  to either a transport failure or a status code with a JSON body;
* Python exceptions relevant to the script (`PyError`): raw
  `requests.exceptions` failures (transport errors and HTTP status errors
  from `raise_for_status`), the generic `Exception("Dudwalls API error: …")`
  raised by `_request`, and `TypeError` from `len` on a non-sized value.

Each wrapper method becomes a pure function taking the oracle and the
client and returning the list of HTTP requests it issues, in order,
together with its return value (`Except PyError _` where the Python method
can raise).  `run` packages all methods into one dispatcher that also
threads the client value through, mirroring that the Python methods never
assign to `self` after `__init__`.
-/

namespace Dudwalls

/-- Decoded JSON values, as returned by `response.json()` and passed as
request bodies. -/
inductive Json where
  | null : Json
  | bool (b : Bool) : Json
  | num (n : Int) : Json
  | str (s : String) : Json
  | arr (elems : List Json) : Json
  | obj (fields : List (String × Json)) : Json

/-- An HTTP request as issued by the wrapper: method, full URL, the header
list the wrapper itself supplies, and the optional JSON body. -/
structure HttpRequest where
  method : String
  url : String
  headers : List (String × String)
  body : Option Json

/-- Outcome of sending one HTTP request: either the transport layer fails
(connection error, timeout, …) or the server answers with a status code
and a JSON body. -/
inductive HttpOutcome where
  | transportError (msg : String) : HttpOutcome
  | response (status : Nat) (body : Json) : HttpOutcome

/-- The remote service together with the network, as a deterministic
oracle from requests to outcomes. -/
abbrev Oracle := HttpRequest → HttpOutcome

/-- Python exceptions the script can raise or observe.
`transport` and `httpStatus` are `requests.exceptions.RequestException`
subclasses (the latter produced by `raise_for_status`, carrying the status
code and URL); `generic` is the plain `Exception` raised by `_request`;
`typeError` models `TypeError` from `len` on a non-sized value. -/
inductive PyError where
  | transport (msg : String) : PyError
  | httpStatus (status : Nat) (url : String) : PyError
  | generic (msg : String) : PyError
  | typeError (msg : String) : PyError

/-- The string rendering of an exception, as interpolated by
`f"Dudwalls API error: {e}"`. -/
def pyErrorStr : PyError → String
  | PyError.transport m => m
  | PyError.httpStatus st url => toString st ++ " Error for url: " ++ url
  | PyError.generic m => m
  | PyError.typeError m => m

/-- Python's `str.rstrip('/')`: remove every trailing `'/'` character. -/
def rstripSlash (s : String) : String :=
  String.mk ((s.data.reverse.dropWhile (fun c => c = '/')).reverse)

/-- The header dictionary built in `DudwallsClient.__init__`. -/
def stdHeaders (api_key : String) : List (String × String) :=
  [("Authorization", "Bearer " ++ api_key),
   ("Content-Type", "application/json"),
   ("User-Agent", "Dudwalls-Python-SDK/1.0.0")]

/-- The state of a `DudwallsClient` instance after `__init__`. -/
structure Client where
  endpoint : String
  api_key : String
  timeout : Nat
  base_url : String
  headers : List (String × String)

/-- `DudwallsClient.__init__(endpoint, api_key, timeout)`: strips trailing
slashes off the endpoint and derives `base_url` and `headers`.  (The
Python default for `timeout` is `10`; here it is always explicit.) -/
def mkClient (endpoint api_key : String) (timeout : Nat) : Client :=
  let ep := rstripSlash endpoint
  { endpoint := ep
    api_key := api_key
    timeout := timeout
    base_url := ep ++ "/api/dudwalls"
    headers := stdHeaders api_key }

/-- The request `_request` builds from a method, path and optional body. -/
def buildRequest (c : Client) (method path : String) (data : Option Json) : HttpRequest :=
  { method := method, url := c.base_url ++ path, headers := c.headers, body := data }

/-- Sending a request and calling `raise_for_status` plus `.json()` on the
response: transport failures surface as `PyError.transport`, statuses in
`[400, 600)` as `PyError.httpStatus`, anything else yields the body. -/
def performHttp (o : Oracle) (r : HttpRequest) : Except PyError Json :=
  match o r with
  | HttpOutcome.transportError m => Except.error (PyError.transport m)
  | HttpOutcome.response st body =>
      if 400 ≤ st ∧ st < 600 then Except.error (PyError.httpStatus st r.url)
      else Except.ok body

/-- `DudwallsClient._request`: build the request from `base_url + path`,
send it, and re-raise any `requests.exceptions.RequestException` as the
generic `Exception(f"Dudwalls API error: {e}")`.  Returns the (singleton)
trace of issued requests together with the result. -/
def request (o : Oracle) (c : Client) (method path : String) (data : Option Json) :
    List HttpRequest × Except PyError Json :=
  let req := buildRequest c method path data
  ([req],
    match performHttp o req with
    | Except.ok j => Except.ok j
    | Except.error e => Except.error (PyError.generic ("Dudwalls API error: " ++ pyErrorStr e)))

/-- The health-check request sent by `ping`: `requests.get` is called with
only a URL and a timeout, so the wrapper supplies no headers. -/
def healthRequest (c : Client) : HttpRequest :=
  { method := "GET", url := c.endpoint ++ "/api/health", headers := [], body := none }

/-- `ping`: a bare `requests.get(f"{self.endpoint}/api/health", timeout=…)`
— no wrapper headers are passed — followed by `raise_for_status` with no
surrounding `try`, so failures surface as the raw requests exceptions. -/
def ping (o : Oracle) (c : Client) : List HttpRequest × Except PyError Json :=
  ([healthRequest c], performHttp o (healthRequest c))

/-- `get_databases`: `GET /`. -/
def get_databases (o : Oracle) (c : Client) : List HttpRequest × Except PyError Json :=
  request o c "GET" "/" none

/-- `create_database`: `POST /` with body `{'name': name}`. -/
def create_database (o : Oracle) (c : Client) (name : String) :
    List HttpRequest × Except PyError Json :=
  request o c "POST" "/" (some (Json.obj [("name", Json.str name)]))

/-- `delete_database`: `DELETE /{name}`. -/
def delete_database (o : Oracle) (c : Client) (name : String) :
    List HttpRequest × Except PyError Json :=
  request o c "DELETE" ("/" ++ name) none

/-- `get_collections`: `GET /{database}`. -/
def get_collections (o : Oracle) (c : Client) (database : String) :
    List HttpRequest × Except PyError Json :=
  request o c "GET" ("/" ++ database) none

/-- `create_collection`: `POST /{database}` with body `{'name': collection}`. -/
def create_collection (o : Oracle) (c : Client) (database collection : String) :
    List HttpRequest × Except PyError Json :=
  request o c "POST" ("/" ++ database) (some (Json.obj [("name", Json.str collection)]))

/-- `delete_collection`: `DELETE /{database}/{collection}`. -/
def delete_collection (o : Oracle) (c : Client) (database collection : String) :
    List HttpRequest × Except PyError Json :=
  request o c "DELETE" ("/" ++ database ++ "/" ++ collection) none

/-- `find`: `GET /{database}/{collection}`. -/
def find (o : Oracle) (c : Client) (database collection : String) :
    List HttpRequest × Except PyError Json :=
  request o c "GET" ("/" ++ database ++ "/" ++ collection) none

/-- `find_one`: `GET /{database}/{collection}/{doc_id}` inside
`try: … except Exception: return None` — every failure becomes `none`. -/
def find_one (o : Oracle) (c : Client) (database collection doc_id : String) :
    List HttpRequest × Option Json :=
  let (tr, r) := request o c "GET" ("/" ++ database ++ "/" ++ collection ++ "/" ++ doc_id) none
  (tr, r.toOption)

/-- `insert_one`: `POST /{database}/{collection}` with the document as body. -/
def insert_one (o : Oracle) (c : Client) (database collection : String) (document : Json) :
    List HttpRequest × Except PyError Json :=
  request o c "POST" ("/" ++ database ++ "/" ++ collection) (some document)

/-- `insert_many`: loop over the documents, calling `insert_one` on each;
a failure is caught (and logged), the loop continues, and only successful
results are appended. -/
def insert_many (o : Oracle) (c : Client) (database collection : String) :
    List Json → List HttpRequest × List Json
  | [] => ([], [])
  | document :: rest =>
      let step := insert_one o c database collection document
      let restRes := insert_many o c database collection rest
      match step.2 with
      | Except.ok v => (step.1 ++ restRes.1, v :: restRes.2)
      | Except.error _ => (step.1 ++ restRes.1, restRes.2)

/-- `update_one`: `PUT /{database}/{collection}/{doc_id}` with the update body. -/
def update_one (o : Oracle) (c : Client) (database collection doc_id : String)
    (update : Json) : List HttpRequest × Except PyError Json :=
  request o c "PUT" ("/" ++ database ++ "/" ++ collection ++ "/" ++ doc_id) (some update)

/-- `delete_one`: `DELETE /{database}/{collection}/{doc_id}`. -/
def delete_one (o : Oracle) (c : Client) (database collection doc_id : String) :
    List HttpRequest × Except PyError Json :=
  request o c "DELETE" ("/" ++ database ++ "/" ++ collection ++ "/" ++ doc_id) none

/-- Python's `len` applied to a decoded JSON value: length of a list,
number of keys of an object, number of characters of a string; `TypeError`
otherwise. -/
def pyLen : Json → Except PyError Nat
  | Json.arr elems => Except.ok elems.length
  | Json.obj fields => Except.ok fields.length
  | Json.str s => Except.ok s.length
  | _ => Except.error (PyError.typeError "object has no len()")

/-- `count`: call `find` and return `len(documents)`. -/
def count (o : Oracle) (c : Client) (database collection : String) :
    List HttpRequest × Except PyError Nat :=
  let (tr, r) := find o c database collection
  (tr, r.bind pyLen)

/-- One call to a wrapper method, with its arguments. -/
inductive Op where
  | ping : Op
  | get_databases : Op
  | create_database (name : String) : Op
  | delete_database (name : String) : Op
  | get_collections (database : String) : Op
  | create_collection (database collection : String) : Op
  | delete_collection (database collection : String) : Op
  | find (database collection : String) : Op
  | find_one (database collection doc_id : String) : Op
  | insert_one (database collection : String) (document : Json) : Op
  | insert_many (database collection : String) (documents : List Json) : Op
  | update_one (database collection doc_id : String) (update : Json) : Op
  | delete_one (database collection doc_id : String) : Op
  | count (database collection : String) : Op

/-- Return values of the wrapper methods, tagged by shape. -/
inductive OpReturn where
  | json (j : Json) : OpReturn
  | optJson (oj : Option Json) : OpReturn
  | listJson (l : List Json) : OpReturn
  | nat (n : Nat) : OpReturn

/-- Dispatch one method call.  Returns the client state after the call
(the Python methods never assign to `self`, so the embedding passes the
client through unchanged), the trace of issued requests, and the result. -/
def run (o : Oracle) (c : Client) : Op → Client × List HttpRequest × Except PyError OpReturn
  | Op.ping =>
      let (tr, r) := ping o c
      (c, tr, r.map OpReturn.json)
  | Op.get_databases =>
      let (tr, r) := get_databases o c
      (c, tr, r.map OpReturn.json)
  | Op.create_database n =>
      let (tr, r) := create_database o c n
      (c, tr, r.map OpReturn.json)
  | Op.delete_database n =>
      let (tr, r) := delete_database o c n
      (c, tr, r.map OpReturn.json)
  | Op.get_collections d =>
      let (tr, r) := get_collections o c d
      (c, tr, r.map OpReturn.json)
  | Op.create_collection d coll =>
      let (tr, r) := create_collection o c d coll
      (c, tr, r.map OpReturn.json)
  | Op.delete_collection d coll =>
      let (tr, r) := delete_collection o c d coll
      (c, tr, r.map OpReturn.json)
  | Op.find d coll =>
      let (tr, r) := find o c d coll
      (c, tr, r.map OpReturn.json)
  | Op.find_one d coll i =>
      let (tr, r) := find_one o c d coll i
      (c, tr, Except.ok (OpReturn.optJson r))
  | Op.insert_one d coll doc =>
      let (tr, r) := insert_one o c d coll doc
      (c, tr, r.map OpReturn.json)
  | Op.insert_many d coll docs =>
      let (tr, rs) := insert_many o c d coll docs
      (c, tr, Except.ok (OpReturn.listJson rs))
  | Op.update_one d coll i u =>
      let (tr, r) := update_one o c d coll i u
      (c, tr, r.map OpReturn.json)
  | Op.delete_one d coll i =>
      let (tr, r) := delete_one o c d coll i
      (c, tr, r.map OpReturn.json)
  | Op.count d coll =>
      let (tr, r) := count o c d coll
      (c, tr, r.map OpReturn.nat)

/-- The `(method, path, body)` of the single `_request` call an operation
makes, when it makes exactly one: `ping` does not use `_request`, and
`insert_many` makes one call per document. -/
def Op.helperArgs : Op → Option (String × String × Option Json)
  | Op.ping => none
  | Op.get_databases => some ("GET", "/", none)
  | Op.create_database n => some ("POST", "/", some (Json.obj [("name", Json.str n)]))
  | Op.delete_database n => some ("DELETE", "/" ++ n, none)
  | Op.get_collections d => some ("GET", "/" ++ d, none)
  | Op.create_collection d coll => some ("POST", "/" ++ d, some (Json.obj [("name", Json.str coll)]))
  | Op.delete_collection d coll => some ("DELETE", "/" ++ d ++ "/" ++ coll, none)
  | Op.find d coll => some ("GET", "/" ++ d ++ "/" ++ coll, none)
  | Op.find_one d coll i => some ("GET", "/" ++ d ++ "/" ++ coll ++ "/" ++ i, none)
  | Op.insert_one d coll doc => some ("POST", "/" ++ d ++ "/" ++ coll, some doc)
  | Op.insert_many _ _ _ => none
  | Op.update_one d coll i u => some ("PUT", "/" ++ d ++ "/" ++ coll ++ "/" ++ i, some u)
  | Op.delete_one d coll i => some ("DELETE", "/" ++ d ++ "/" ++ coll ++ "/" ++ i, none)
  | Op.count d coll => some ("GET", "/" ++ d ++ "/" ++ coll, none)

/-- Whether the operation swallows failures instead of raising them:
true exactly for `find_one` and `insert_many`. -/
def Op.suppresses : Op → Bool
  | Op.find_one _ _ _ => true
  | Op.insert_many _ _ _ => true
  | _ => false

/-- Whether a result is the generic wrapper failure
`Exception("Dudwalls API error: …")`. -/
def isGenericFailure : Except PyError OpReturn → Bool
  | Except.error (PyError.generic _) => true
  | _ => false

/-- An oracle that always answers `200` with a string body. -/
def httpOk : Oracle := fun _ => HttpOutcome.response 200 (Json.str "ok")

/-- An oracle that always answers `500`. -/
def http500 : Oracle := fun _ => HttpOutcome.response 500 Json.null

/-- An oracle that fails at transport level whenever the request body is
the document `Json.str "b"`, and answers `200` otherwise. -/
def failOnB : Oracle := fun r =>
  match r.body with
  | some (Json.str "b") => HttpOutcome.transportError "connection refused"
  | _ => HttpOutcome.response 200 (Json.str "inserted")

/-- An oracle that always answers `200` with a two-element array body. -/
def httpTwoDocs : Oracle :=
  fun _ => HttpOutcome.response 200 (Json.arr [Json.str "a", Json.str "b"])

/-- A concrete client used to instantiate theorems. -/
def demoClient : Client := mkClient "http://h" "K" 10

/-- Whether a string ends in the character `'/'`. -/
def hasTrailingSlash (s : String) : Bool :=
  match s.data.getLast? with
  | some '/' => true
  | _ => false

/-- Stripping trailing slashes is unaffected by first appending one slash. -/
theorem rstripSlash_append_slash (s : String) : rstripSlash (s ++ "/") = rstripSlash s := by
  simp [rstripSlash, String.data_append]

/-- `insert_many` issues exactly the `insert_one` request for each document,
in input order, and collects exactly the successful results, in input order. -/
theorem insert_many_eq (o : Oracle) (c : Client) (database collection : String)
    (docs : List Json) :
    insert_many o c database collection docs =
      (docs.map (fun d => buildRequest c "POST" ("/" ++ database ++ "/" ++ collection) (some d)),
       docs.filterMap (fun d => ((insert_one o c database collection d).2).toOption)) := by
  induction docs with
  | nil => rfl
  | cons d rest ih =>
      cases h : (insert_one o c database collection d).2 with
      | ok v =>
          simp [insert_many, ih, h, List.filterMap_cons, Except.toOption]
          exact rfl
      | error e =>
          simp [insert_many, ih, h, List.filterMap_cons, Except.toOption]
          exact rfl

/-- A `filterMap` whose function succeeds on every element preserves length. -/
theorem length_filterMap_all_isSome {α β : Type} (f : α → Option β) (l : List α)
    (h : l.all (fun a => (f a).isSome) = true) : (l.filterMap f).length = l.length := by
  induction l with
  | nil => rfl
  | cons a rest ih =>
      simp only [List.all_cons, Bool.and_eq_true] at h
      obtain ⟨ha, hrest⟩ := h
      obtain ⟨b, hb⟩ := Option.isSome_iff_exists.mp ha
      simp [List.filterMap_cons, hb, ih hrest]

/-- C7: for an endpoint `e` with no trailing slash, constructing the client
from `e ++ "/"` produces exactly the same client as constructing it from
`e` — `__init__` strips trailing slashes — and therefore every operation
issues identical requests (and returns identical results) under either
construction. -/
theorem trailing_slash_endpoint_equiv (e k : String) (t : Nat) (o : Oracle) (op : Op)
    (_h : hasTrailingSlash e = false) :
    mkClient (e ++ "/") k t = mkClient e k t ∧
      run o (mkClient (e ++ "/") k t) op = run o (mkClient e k t) op := by
  have hc : mkClient (e ++ "/") k t = mkClient e k t := by
    simp [mkClient, rstripSlash_append_slash]
  exact ⟨hc, by rw [hc]⟩

/-- C7 witness: the trailing-slash equivalence at a concrete endpoint,
key, timeout and operation. -/
theorem trailing_slash_endpoint_equiv_witness :
    (hasTrailingSlash "http://x" = false) ∧
    (mkClient ("http://x" ++ "/") "K" 10 = mkClient "http://x" "K" 10 ∧
      run httpOk (mkClient ("http://x" ++ "/") "K" 10) Op.get_databases =
        run httpOk (mkClient "http://x" "K" 10) Op.get_databases) :=
  ⟨by decide, trailing_slash_endpoint_equiv "http://x" "K" 10 httpOk Op.get_databases (by decide)⟩

/-- C8: the client configuration is immutable — no operation, succeeding
or failing, changes any field of the client instance: the client state
after `run` equals the client state before. -/
theorem client_config_immutable (o : Oracle) (c : Client) (op : Op) :
    (run o c op).1 = c := by
  cases op <;> rfl

/-- C9: names are interpolated into paths with no escaping, so
`find database (collection ++ "/" ++ doc_id)` issues exactly the request
(method, URL, headers, body) that `find_one database collection doc_id`
issues. -/
theorem path_interpolation_collision (o : Oracle) (c : Client)
    (database collection doc_id : String) :
    (find o c database (collection ++ "/" ++ doc_id)).1 =
      (find_one o c database collection doc_id).1 := by
  simp [find, find_one, request, buildRequest, String.append_assoc]

/-- C10: `insert_many` on the empty document list returns the empty result
list and issues no HTTP request at all. -/
theorem insert_many_empty_no_request (o : Oracle) (c : Client)
    (database collection : String) :
    insert_many o c database collection [] = ([], []) := rfl

/-- C1: when the `k`-th document's insert fails and every other document's
insert succeeds, `insert_many` still issues exactly one insert request per
document, sequentially in input order (no abort), and returns exactly the
successful results in input order — `N - 1` of them, omitting the failed
element; no failure reaches the caller (the return type is a plain list). -/
theorem insert_many_partial_failure (o : Oracle) (c : Client)
    (database collection : String) (docs : List Json) (k : Nat) (hk : k < docs.length)
    (hfail : ((insert_one o c database collection docs[k]).2).toOption.isSome = false)
    (hrest : (docs.eraseIdx k).all
        (fun d => ((insert_one o c database collection d).2).toOption.isSome) = true) :
    (insert_many o c database collection docs).1 =
        docs.map (fun d =>
          buildRequest c "POST" ("/" ++ database ++ "/" ++ collection) (some d)) ∧
    (insert_many o c database collection docs).2 =
        docs.filterMap (fun d => ((insert_one o c database collection d).2).toOption) ∧
    ((insert_many o c database collection docs).2).length = docs.length - 1 := by
  refine ⟨by rw [insert_many_eq], by rw [insert_many_eq], ?_⟩
  rw [insert_many_eq]
  have hsplit : docs = docs.take k ++ docs[k] :: docs.drop (k + 1) := by
    conv_lhs => rw [← List.take_append_drop k docs]
    rw [List.drop_eq_getElem_cons hk]
  have herase : docs.eraseIdx k = docs.take k ++ docs.drop (k + 1) :=
    List.eraseIdx_eq_take_drop_succ docs k
  rw [herase, List.all_append, Bool.and_eq_true] at hrest
  obtain ⟨htake, hdrop⟩ := hrest
  have hnone : ((insert_one o c database collection docs[k]).2).toOption = none := by
    cases hfo : ((insert_one o c database collection docs[k]).2).toOption with
    | none => rfl
    | some v => rw [hfo] at hfail; simp at hfail
  conv_lhs => rw [hsplit]
  rw [List.filterMap_append, List.filterMap_cons, hnone, List.length_append,
    length_filterMap_all_isSome _ _ htake, length_filterMap_all_isSome _ _ hdrop,
    List.length_take, List.length_drop]
  omega

/-- Three concrete documents used to instantiate the batch-insert theorem. -/
def docsABC : List Json := [Json.str "a", Json.str "b", Json.str "c"]

/-- C1 witness: inserting three documents where the second one fails at
transport level issues all three requests and returns the two successes. -/
theorem insert_many_partial_failure_witness :
    1 < docsABC.length ∧
    ((insert_one failOnB demoClient "d" "c" (Json.str "b")).2).toOption.isSome = false ∧
    (docsABC.eraseIdx 1).all
      (fun d => ((insert_one failOnB demoClient "d" "c" d).2).toOption.isSome) = true ∧
    (insert_many failOnB demoClient "d" "c" docsABC).1 =
      docsABC.map (fun d => buildRequest demoClient "POST" ("/" ++ "d" ++ "/" ++ "c") (some d)) ∧
    (insert_many failOnB demoClient "d" "c" docsABC).2 =
      docsABC.filterMap (fun d => ((insert_one failOnB demoClient "d" "c" d).2).toOption) ∧
    ((insert_many failOnB demoClient "d" "c" docsABC).2).length = docsABC.length - 1 := by
  have h := insert_many_partial_failure failOnB demoClient "d" "c" docsABC 1 (by decide) rfl rfl
  exact ⟨by decide, rfl, rfl, h.1, h.2.1, h.2.2⟩

/-- C2: whenever the underlying request fails — transport failure, 404, or
any other non-success status — `find_one` returns `none` instead of
raising, after issuing exactly its one GET request; the `none` result
carries no trace of the failure cause. -/
theorem find_one_suppresses_failure (o : Oracle) (c : Client)
    (database collection doc_id : String)
    (hfail : (performHttp o (buildRequest c "GET"
        ("/" ++ database ++ "/" ++ collection ++ "/" ++ doc_id) none)).toOption.isSome
      = false) :
    (find_one o c database collection doc_id).2 = none ∧
    (find_one o c database collection doc_id).1 =
      [buildRequest c "GET" ("/" ++ database ++ "/" ++ collection ++ "/" ++ doc_id) none] := by
  refine ⟨?_, rfl⟩
  cases hp : performHttp o
      (buildRequest c "GET" ("/" ++ database ++ "/" ++ collection ++ "/" ++ doc_id) none) with
  | ok v => rw [hp] at hfail; simp [Except.toOption] at hfail
  | error e => simp [find_one, request, hp, Except.toOption]

/-- C2 witness: against a server that always answers 500, `find_one`
returns `none` after its single GET request. -/
theorem find_one_suppresses_failure_witness :
    (performHttp http500 (buildRequest demoClient "GET"
        ("/" ++ "d" ++ "/" ++ "c" ++ "/" ++ "i") none)).toOption.isSome = false ∧
    (find_one http500 demoClient "d" "c" "i").2 = none ∧
    (find_one http500 demoClient "d" "c" "i").1 =
      [buildRequest demoClient "GET" ("/" ++ "d" ++ "/" ++ "c" ++ "/" ++ "i") none] := by
  have h := find_one_suppresses_failure http500 demoClient "d" "c" "i" rfl
  exact ⟨rfl, h.1, h.2⟩

/-- C4: `count` issues exactly the single collection-fetch request that
`find` issues — no server-side counting — and, for the same server
response, returns exactly the length of the array `find` returns. -/
theorem count_eq_find_length (o : Oracle) (c : Client) (database collection : String)
    (docs : List Json)
    (hfind : (find o c database collection).2 = Except.ok (Json.arr docs)) :
    (count o c database collection).1 = (find o c database collection).1 ∧
    (count o c database collection).1 =
      [buildRequest c "GET" ("/" ++ database ++ "/" ++ collection) none] ∧
    (count o c database collection).2 = Except.ok docs.length := by
  refine ⟨rfl, rfl, ?_⟩
  simp [count, hfind, Except.bind, pyLen]

/-- A `_request` call whose underlying HTTP exchange fails always raises
the generic wrapper exception. -/
theorem request_error_generic (o : Oracle) (c : Client) (method path : String)
    (data : Option Json)
    (h : (performHttp o (buildRequest c method path data)).toOption.isSome = false) :
    ∃ s, (request o c method path data).2 = Except.error (PyError.generic s) := by
  cases hp : performHttp o (buildRequest c method path data) with
  | ok v => rw [hp] at h; simp [Except.toOption] at h
  | error e => exact ⟨"Dudwalls API error: " ++ pyErrorStr e, by simp [request, hp]⟩

/-- C3 counterexample: a failing `ping` surfaces the raw
`raise_for_status` error, which carries the status code — not the generic
message-only wrapper failure — so the claim that every surfaced failure,
including the connectivity check's, is the indistinguishable generic
signal is false. -/
theorem ping_surfaces_raw_failure :
    (run http500 demoClient Op.ping).2.2
      = Except.error (PyError.httpStatus 500 "http://h/api/health") ∧
    isGenericFailure ((run http500 demoClient Op.ping).2.2) = false :=
  ⟨rfl, rfl⟩

/-- C3 amended: every method whose single `_request` call fails at the
HTTP level — i.e. every method except `ping` and the suppressing
`find_one` / `insert_many` — surfaces exactly the one generic
message-string failure, from which the caller cannot distinguish the
cause; `find_one` and `insert_many` never raise at all; `ping`, however,
surfaces the raw requests exception, which is never the generic signal,
so its cause remains distinguishable. -/
theorem error_channel_design :
    (∀ (o : Oracle) (c : Client) (op : Op) (args : String × String × Option Json),
      Op.helperArgs op = some args → Op.suppresses op = false →
      (performHttp o (buildRequest c args.1 args.2.1 args.2.2)).toOption.isSome = false →
      isGenericFailure ((run o c op).2.2) = true) ∧
    (∀ (o : Oracle) (c : Client) (database collection doc_id : String),
      ((run o c (Op.find_one database collection doc_id)).2.2).toOption.isSome = true) ∧
    (∀ (o : Oracle) (c : Client) (database collection : String) (documents : List Json),
      ((run o c (Op.insert_many database collection documents)).2.2).toOption.isSome
        = true) ∧
    (∀ (o : Oracle) (c : Client),
      ((run o c Op.ping).2.2).toOption.isSome = false →
      isGenericFailure ((run o c Op.ping).2.2) = false) := by
  refine ⟨?_, fun o c d coll i => rfl, fun o c d coll ds => rfl, ?_⟩
  · intro o c op args hargs hsup hfail
    cases op
    case ping => exact nomatch hargs
    case insert_many d coll docs => exact nomatch hargs
    case find_one d coll i => exact nomatch hsup
    all_goals
      obtain rfl := Option.some.inj hargs
      obtain ⟨s, hs⟩ := request_error_generic o c _ _ _ hfail
      simp [run, get_databases, create_database, delete_database, get_collections,
        create_collection, delete_collection, find, insert_one, update_one,
        delete_one, count, hs, isGenericFailure, Except.map, Except.bind]
  · intro o c h
    cases ho : o (healthRequest c) with
    | transportError m =>
        simp [run, ping, performHttp, ho, isGenericFailure, Except.map]
    | response st body =>
        by_cases hst : 400 ≤ st ∧ st < 600
        · simp [run, ping, performHttp, ho, hst, isGenericFailure, Except.map]
        · simp [run, ping, performHttp, ho, hst, Except.map, Except.toOption] at h

/-- C3 witness: a database listing against a server that always answers
500 fails with the generic wrapper failure. -/
theorem error_channel_design_witness :
    isGenericFailure ((run http500 demoClient Op.get_databases).2.2) = true :=
  error_channel_design.1 http500 demoClient Op.get_databases ("GET", "/", none) rfl rfl rfl

/-- C5 counterexample: the health-check request issued by `ping` carries
no wrapper headers at all — in particular not the bearer Authorization
header — refuting the claim that every request, including the
connectivity check, carries the credential and content-type headers. -/
theorem ping_misses_auth_header :
    (⟨"GET", "http://h/api/health", [], none⟩ : HttpRequest)
        ∈ (run httpOk demoClient Op.ping).2.1 ∧
    ¬ (("Authorization", "Bearer " ++ "K")
        ∈ (⟨"GET", "http://h/api/health", [], none⟩ : HttpRequest).headers) :=
  ⟨List.mem_singleton.mpr rfl, fun h => nomatch h⟩

/-- C5 amended: every request issued by every operation other than `ping`
— all of which go through `_request` — carries the bearer Authorization
header and the `application/json` Content-Type header; `ping`'s health
request (see the counterexample) carries neither. -/
theorem request_headers (e k : String) (t : Nat) (o : Oracle) (op : Op) (r : HttpRequest)
    (hop : op ≠ Op.ping) (hr : r ∈ (run o (mkClient e k t) op).2.1) :
    ("Authorization", "Bearer " ++ k) ∈ r.headers ∧
    ("Content-Type", "application/json") ∈ r.headers := by
  cases op
  case ping => exact absurd rfl hop
  case insert_many d coll docs =>
    rw [show (run o (mkClient e k t) (Op.insert_many d coll docs)).2.1
        = (insert_many o (mkClient e k t) d coll docs).1 from rfl, insert_many_eq] at hr
    simp only [List.mem_map] at hr
    obtain ⟨d', _, rfl⟩ := hr
    simp [buildRequest, mkClient, stdHeaders]
  all_goals
    obtain rfl := List.mem_singleton.mp hr
    simp [buildRequest, mkClient, stdHeaders]

/-- C5 witness: the database-listing request carries both headers. -/
theorem request_headers_witness :
    Op.get_databases ≠ Op.ping ∧
    buildRequest (mkClient "http://h" "K" 10) "GET" "/" none
      ∈ (run httpOk (mkClient "http://h" "K" 10) Op.get_databases).2.1 ∧
    ("Authorization", "Bearer " ++ "K")
      ∈ (buildRequest (mkClient "http://h" "K" 10) "GET" "/" none).headers ∧
    ("Content-Type", "application/json")
      ∈ (buildRequest (mkClient "http://h" "K" 10) "GET" "/" none).headers := by
  have h := request_headers "http://h" "K" 10 httpOk Op.get_databases
    (buildRequest (mkClient "http://h" "K" 10) "GET" "/" none)
    (fun hco => nomatch hco) (List.mem_singleton.mpr rfl)
  exact ⟨(fun hco => nomatch hco), List.mem_singleton.mpr rfl, h.1, h.2⟩

/-- C6 counterexample: deleting database `python-app` sends its single
DELETE request to `…/api/dudwalls/python-app`, which is not the documented
database path `…/api/dudwalls/`. -/
theorem delete_database_path_mismatch :
    ((run httpOk demoClient (Op.delete_database "python-app")).2.1).map HttpRequest.url
      = ["http://h/api/dudwalls/python-app"] ∧
    ("http://h/api/dudwalls/python-app" : String) ≠ "http://h/api/dudwalls/" :=
  ⟨rfl, by decide⟩

/-- C6 amended: `delete_database` issues exactly one DELETE request, to
`{endpoint}/api/dudwalls/{name}` — the database name is appended to the
path — while the documented database row does hold for GET and POST, whose
single requests go to `{endpoint}/api/dudwalls/`. -/
theorem database_request_paths (o : Oracle) (e k : String) (t : Nat) (n : String) :
    (run o (mkClient e k t) (Op.delete_database n)).2.1 =
      [{ method := "DELETE", url := rstripSlash e ++ "/api/dudwalls" ++ ("/" ++ n),
         headers := stdHeaders k, body := none }] ∧
    (run o (mkClient e k t) Op.get_databases).2.1 =
      [{ method := "GET", url := rstripSlash e ++ "/api/dudwalls" ++ "/",
         headers := stdHeaders k, body := none }] ∧
    (run o (mkClient e k t) (Op.create_database n)).2.1 =
      [{ method := "POST", url := rstripSlash e ++ "/api/dudwalls" ++ "/",
         headers := stdHeaders k,
         body := some (Json.obj [("name", Json.str n)]) }] :=
  ⟨rfl, rfl, rfl⟩

/-- C4 witness: against a server whose collection body is a two-element
array, `count` returns `2` via the same single GET request as `find`. -/
theorem count_eq_find_length_witness :
    (find httpTwoDocs demoClient "d" "c").2
      = Except.ok (Json.arr [Json.str "a", Json.str "b"]) ∧
    (count httpTwoDocs demoClient "d" "c").1 = (find httpTwoDocs demoClient "d" "c").1 ∧
    (count httpTwoDocs demoClient "d" "c").1 =
      [buildRequest demoClient "GET" ("/" ++ "d" ++ "/" ++ "c") none] ∧
    (count httpTwoDocs demoClient "d" "c").2 = Except.ok 2 := by
  have h := count_eq_find_length httpTwoDocs demoClient "d" "c" [Json.str "a", Json.str "b"] rfl
  exact ⟨rfl, h.1, h.2.1, h.2.2⟩

end Dudwalls
